import Mathlib

/-!
Verification of the AgroHire dynamic pricing engine and booking availability
resolver, shallowly embedded from the Django source.

Conventions of the embedding:
* Django `DecimalField` money/multiplier values are modelled as `ℚ` (exact
  decimal arithmetic, no floating point).
* `DateField` / `DateTimeField` values are modelled as `ℤ` (a point on a
  totally ordered time axis; only comparisons and day-offsets are used).
* Nullable columns become `Option` values.  Python truthiness on a nullable
  `Decimal` (`if self.f:`) is false both for `None` and for `0`, which the
  helper `truthyQ` captures.
* A Django queryset over a table is modelled as a `List` of rows; `.first()`
  is `List.head?` applied after the filter, and the incidental database
  ordering is the list order.
-/

/-- Python truthiness of an optional decimal column: `None` and `0` are
falsy, every other value is truthy. -/
def truthyQ : Option ℚ → Bool
  | none => false
  | some x => x != 0

/-- Python `a or b` where `a` is an optional decimal column and `b` a
decimal: yields the value of `a` when truthy, otherwise `b`. -/
def pyOrQ (a : Option ℚ) (b : ℚ) : ℚ :=
  match a with
  | some x => if x != 0 then x else b
  | none => b

/-- Python truthiness of an optional integer primary key (`if self.pk:`). -/
def truthyPk : Option Nat → Bool
  | none => false
  | some n => n != 0

/-- Embeds `equipment.models.Equipment` — the columns used by the pricing and
booking logic.  `equipment_type` is the id of the related `EquipmentType`
row. -/
structure Equipment where
  id : Nat
  equipment_type : Nat
  daily_rate : ℚ
  hourly_rate : ℚ
  weekly_rate : Option ℚ
  monthly_rate : Option ℚ
deriving DecidableEq, Repr

/-- Embeds `bookings.models.Booking` — the columns used by `check_availability`
and the demand counters.  `equipment` is the related `Equipment` instance,
as on a Django model object; `pk` is `none` for an unsaved instance. -/
structure Booking where
  pk : Option Nat
  equipment : Equipment
  status : String
  start_date : ℤ
  end_date : ℤ
deriving DecidableEq, Repr

/-- The filter body of the `conflicting_bookings` queryset in
`Booking.check_availability` (bookings/models.py:121-126): same equipment,
status `confirmed` or `in_progress`, and
`start_date < self.end_date AND end_date > self.start_date`. -/
def conflictFilter (self b : Booking) : Bool :=
  b.equipment.id == self.equipment.id &&
  (b.status == "confirmed" || b.status == "in_progress") &&
  decide (b.start_date < self.end_date) &&
  decide (b.end_date > self.start_date)

/-- Embeds `Booking.check_availability` (bookings/models.py:119-131): filter the
booking table with `conflictFilter`; when `self.pk` is truthy, additionally
exclude the row with that pk; available iff no row remains. -/
def check_availability (db : List Booking) (self : Booking) : Bool :=
  let conflicting := db.filter (conflictFilter self)
  let conflicting :=
    if truthyPk self.pk then conflicting.filter (fun b => !(b.pk == self.pk))
    else conflicting
  conflicting.isEmpty

/-- The conflict predicate of the availability check, spelled out: `b` blocks
the proposal `self` iff it is a confirmed/in-progress booking of the same
equipment overlapping the half-open interval, and is not the row excluded by
`self.pk`. -/
def blocksProposal (self b : Booking) : Prop :=
  b.equipment.id = self.equipment.id ∧
  (b.status = "confirmed" ∨ b.status = "in_progress") ∧
  b.start_date < self.end_date ∧
  b.end_date > self.start_date ∧
  (truthyPk self.pk = true → b.pk ≠ self.pk)

instance (self b : Booking) : Decidable (blocksProposal self b) := by
  unfold blocksProposal; infer_instance

/-- Equipment shared by the concrete availability scenarios. -/
def eqAv : Equipment :=
  { id := 1, equipment_type := 1, daily_rate := 10, hourly_rate := 2,
    weekly_rate := none, monthly_rate := none }

/-- A confirmed booking of `eqAv` over `[0, 10)`. -/
def bSpan : Booking :=
  { pk := some 1, equipment := eqAv, status := "confirmed",
    start_date := 0, end_date := 10 }

/-- A confirmed booking of `eqAv` over `[-3, 5)`, ending exactly at instant 5. -/
def bTouch : Booking :=
  { pk := some 2, equipment := eqAv, status := "confirmed",
    start_date := -3, end_date := 5 }

/-- An unsaved proposal for `eqAv` with the zero-duration interval `[5, 5)`. -/
def zeroProposal : Booking :=
  { pk := none, equipment := eqAv, status := "pending",
    start_date := 5, end_date := 5 }

/-- Embeds `pricing.models.SeasonalPricing` — the columns used by the pricing
logic.  `equipment_type` is the id of the related `EquipmentType` row. -/
structure SeasonalPricing where
  equipment_type : Nat
  start_date : ℤ
  end_date : ℤ
  hourly_multiplier : ℚ
  daily_multiplier : ℚ
  fixed_hourly_rate : Option ℚ
  fixed_daily_rate : Option ℚ
  is_active : Bool
deriving DecidableEq, Repr

/-- Embeds `Equipment.active_seasonal_rule` (equipment/models.py:156-166): the
first active `SeasonalPricing` row for the equipment's type whose date
range contains `today`. -/
def active_seasonal_rule (seasonals : List SeasonalPricing) (e : Equipment)
    (today : ℤ) : Option SeasonalPricing :=
  (seasonals.filter (fun s =>
    s.equipment_type == e.equipment_type &&
    s.is_active &&
    decide (s.start_date ≤ today) &&
    decide (s.end_date ≥ today))).head?

/-- Embeds `Equipment.get_current_price` (equipment/models.py:168-193).  With no
active seasonal rule the base rate is returned (weekly/monthly falling back
to `daily_rate * 7` / `daily_rate * 30` via Python `or` when the column is
`None` or `0`); with an active rule the hourly/daily base (or the rule's
truthy fixed rate) is multiplied by the rule's multiplier, and the
weekly/monthly base is multiplied by the rule's `daily_multiplier`.
Any other `rate_type` yields `daily_rate`. -/
def get_current_price (seasonals : List SeasonalPricing) (e : Equipment)
    (today : ℤ) (rate_type : String) : ℚ :=
  match active_seasonal_rule seasonals e today with
  | none =>
    if rate_type == "hourly" then e.hourly_rate
    else if rate_type == "weekly" then pyOrQ e.weekly_rate (e.daily_rate * 7)
    else if rate_type == "monthly" then pyOrQ e.monthly_rate (e.daily_rate * 30)
    else e.daily_rate
  | some rule =>
    if rate_type == "hourly" then
      pyOrQ rule.fixed_hourly_rate e.hourly_rate * rule.hourly_multiplier
    else if rate_type == "daily" then
      pyOrQ rule.fixed_daily_rate e.daily_rate * rule.daily_multiplier
    else if rate_type == "weekly" then
      pyOrQ e.weekly_rate (e.daily_rate * 7) * rule.daily_multiplier
    else if rate_type == "monthly" then
      pyOrQ e.monthly_rate (e.daily_rate * 30) * rule.daily_multiplier
    else e.daily_rate

/-- Embeds `pricing.models.PricingRule` — the columns used by the rule engine. -/
structure PricingRule where
  equipment : Option Nat
  equipment_type : Option Nat
  start_date : Option ℤ
  end_date : Option ℤ
  start_time : Option ℤ
  end_time : Option ℤ
  days_of_week : List Nat
  latitude_min : Option ℚ
  latitude_max : Option ℚ
  longitude_min : Option ℚ
  longitude_max : Option ℚ
  hourly_multiplier : ℚ
  daily_multiplier : ℚ
  weekly_multiplier : ℚ
  monthly_multiplier : ℚ
  fixed_hourly_rate : Option ℚ
  fixed_daily_rate : Option ℚ
  fixed_weekly_rate : Option ℚ
  fixed_monthly_rate : Option ℚ
  priority : Nat
  is_active : Bool
deriving DecidableEq, Repr

/-- A location dictionary with `lat` and `lng` keys. -/
structure Loc where
  lat : ℚ
  lng : ℚ
deriving DecidableEq, Repr

/-- Models `date.weekday()` on the integer day axis (0..6; the epoch offset is
irrelevant to the properties proved here). -/
def weekday (d : ℤ) : Nat := (d % 7).toNat

/-- Embeds `PricingRule.is_applicable` (pricing/models.py:106-140): the equipment /
equipment-type scope, date range, time range, day-of-week set and location
bounding box checks, each guarded by the Python truthiness of the column
and (for time and location) of the argument. -/
def is_applicable (r : PricingRule) (e : Equipment) (date : ℤ)
    (time : Option ℤ) (location : Option Loc) : Bool :=
  if r.equipment.any (fun eq => eq != e.id) then false
  else if r.equipment_type.any (fun t => e.equipment_type != t) then false
  else if r.start_date.any (fun sd => decide (date < sd)) then false
  else if r.end_date.any (fun ed => decide (date > ed)) then false
  else if time.any (fun t => r.start_time.any (fun st => decide (t < st))) then false
  else if time.any (fun t => r.end_time.any (fun et => decide (t > et))) then false
  else if !r.days_of_week.isEmpty && !(r.days_of_week.contains (weekday date)) then false
  else if location.any (fun l => truthyQ r.latitude_min && decide (l.lat < r.latitude_min.getD 0)) then false
  else if location.any (fun l => truthyQ r.latitude_max && decide (l.lat > r.latitude_max.getD 0)) then false
  else if location.any (fun l => truthyQ r.longitude_min && decide (l.lng < r.longitude_min.getD 0)) then false
  else if location.any (fun l => truthyQ r.longitude_max && decide (l.lng > r.longitude_max.getD 0)) then false
  else true

/-- Embeds `PricingRule.calculate_rate` (pricing/models.py:142-161): for each of
the four rate types, a truthy fixed rate is returned as-is, otherwise the
equipment base rate for that type times the rule's multiplier; any other
`base_rate_type` yields `equipment.daily_rate`.  `duration_hours` is a
parameter of the source method that it never reads. -/
def calculate_rate (r : PricingRule) (e : Equipment) (duration_hours : ℚ)
    (base_rate_type : String) : ℚ :=
  if base_rate_type == "hourly" then
    if truthyQ r.fixed_hourly_rate then r.fixed_hourly_rate.getD 0
    else e.hourly_rate * r.hourly_multiplier
  else if base_rate_type == "daily" then
    if truthyQ r.fixed_daily_rate then r.fixed_daily_rate.getD 0
    else e.daily_rate * r.daily_multiplier
  else if base_rate_type == "weekly" then
    if truthyQ r.fixed_weekly_rate then r.fixed_weekly_rate.getD 0
    else pyOrQ e.weekly_rate (e.daily_rate * 7) * r.weekly_multiplier
  else if base_rate_type == "monthly" then
    if truthyQ r.fixed_monthly_rate then r.fixed_monthly_rate.getD 0
    else pyOrQ e.monthly_rate (e.daily_rate * 30) * r.monthly_multiplier
  else e.daily_rate

/-- The candidate queryset of `apply_pricing_rules` (pricing/tasks.py:216-219):
active rules scoped to this equipment or to its equipment type. -/
def candidateRules (rules : List PricingRule) (e : Equipment) : List PricingRule :=
  rules.filter (fun r =>
    (r.equipment == some e.id || r.equipment_type == some e.equipment_type) &&
    r.is_active)

/-- Models the descending sort on `priority` followed by `first()` in the
rule queryset: the earliest row among those of
maximal `priority` (a stable descending sort followed by `first()`). -/
def firstMaxPriority : List PricingRule → Option PricingRule
  | [] => none
  | r :: rs =>
    match firstMaxPriority rs with
    | none => some r
    | some m => if m.priority > r.priority then some m else some r

/-- Embeds `apply_pricing_rules` (pricing/tasks.py:210-233): take the single
highest-priority active candidate rule; if it exists and
`is_applicable(equipment, date)` holds (no time, no location argument),
return its `daily_multiplier`, otherwise the default multiplier `1.0`. -/
def apply_pricing_rules (rules : List PricingRule) (e : Equipment)
    (date : ℤ) : ℚ :=
  match firstMaxPriority (candidateRules rules e) with
  | some rule =>
    if is_applicable rule e date none none then rule.daily_multiplier else 1
  | none => 1

/-- Embeds `pricing.models.DemandPricing` — the columns used by the demand logic. -/
structure DemandPricing where
  equipment_type : Nat
  low_demand_threshold : Nat
  high_demand_threshold : Nat
  low_demand_multiplier : ℚ
  normal_demand_multiplier : ℚ
  high_demand_multiplier : ℚ
  demand_calculation_days : Nat
  is_active : Bool
deriving DecidableEq, Repr

/-- The booking-count query shared verbatim by
`calculate_demand_multiplier` (pricing/tasks.py:160-165) and
`DemandPricing.calculate_demand_level` (pricing/models.py:281-286):
bookings whose equipment has the given type, with `start_date` in
`[sd, ed]` and status `confirmed` or `in_progress`. -/
def demandBookingCount (bookings : List Booking) (etype : Nat)
    (sd ed : ℤ) : Nat :=
  (bookings.filter (fun b =>
    b.equipment.equipment_type == etype &&
    decide (sd ≤ b.start_date) && decide (b.start_date ≤ ed) &&
    (b.status == "confirmed" || b.status == "in_progress"))).length

/-- Models `DemandPricing.objects.filter(equipment_type=..., is_active=True).first()`
(pricing/tasks.py:168-171). -/
def activeDemandConfig (configs : List DemandPricing) (etype : Nat) :
    Option DemandPricing :=
  (configs.filter (fun dp => dp.equipment_type == etype && dp.is_active)).head?

/-- Embeds `calculate_demand_multiplier` (pricing/tasks.py:151-185): count the
bookings of the equipment's type starting within the last 7 days (the
window is the literal `timedelta(days=7)`), then map the count through the
first active demand config's thresholds; `1.0` when no config exists. -/
def calculate_demand_multiplier (bookings : List Booking)
    (configs : List DemandPricing) (e : Equipment) (date : ℤ) : ℚ :=
  let start_date := date - 7
  let booking_count := demandBookingCount bookings e.equipment_type start_date date
  match activeDemandConfig configs e.equipment_type with
  | some dp =>
    if booking_count ≤ dp.low_demand_threshold then dp.low_demand_multiplier
    else if booking_count ≥ dp.high_demand_threshold then dp.high_demand_multiplier
    else dp.normal_demand_multiplier
  | none => 1

/-- Embeds `DemandPricing.calculate_demand_level` (pricing/models.py:272-294):
same count but over the config's own `demand_calculation_days` window,
mapped to the strings `low` / `high` / `normal`. -/
def calculate_demand_level (dp : DemandPricing) (bookings : List Booking)
    (date : ℤ) : String :=
  let start_date := date - dp.demand_calculation_days
  let booking_count := demandBookingCount bookings dp.equipment_type start_date date
  if booking_count ≤ dp.low_demand_threshold then "low"
  else if booking_count ≥ dp.high_demand_threshold then "high"
  else "normal"

/-- The demand multiplier as claim C5 words it: the counting window is
`[as_of_date − window_days, as_of_date]` with `window_days` taken from the
config's `demand_calculation_days`.  Stated only to be compared against the
source's `calculate_demand_multiplier`. -/
def claimWordedDemandMultiplier (bookings : List Booking)
    (configs : List DemandPricing) (e : Equipment) (date : ℤ) : ℚ :=
  match activeDemandConfig configs e.equipment_type with
  | some dp =>
    let booking_count :=
      demandBookingCount bookings e.equipment_type
        (date - dp.demand_calculation_days) date
    if booking_count ≤ dp.low_demand_threshold then dp.low_demand_multiplier
    else if booking_count ≥ dp.high_demand_threshold then dp.high_demand_multiplier
    else dp.normal_demand_multiplier
  | none => 1

/-- Embeds `pricing.models.PricingHistory` — the columns written by
`update_pricing_history`. -/
structure PricingHistory where
  equipment_id : Nat
  base_rate : ℚ
  adjusted_rate : ℚ
  multiplier : ℚ
  rate_type : String
  demand_level : String
  effective_date : ℤ
deriving DecidableEq, Repr

/-- The `get_or_create` lookup key of `update_pricing_history`:
`(equipment, effective_date)`. -/
def historyKey (ph : PricingHistory) (eid : Nat) (d : ℤ) : Bool :=
  ph.equipment_id == eid && ph.effective_date == d

/-- Number of rows in the history table with the given key. -/
def historyCount (table : List PricingHistory) (eid : Nat) (d : ℤ) : Nat :=
  (table.filter (fun ph => historyKey ph eid d)).length

/-- Embeds `update_pricing_history` (pricing/tasks.py:236-267):
`get_or_create(equipment=..., effective_date=..., defaults={...})` — the
first row with the key is updated in place, setting only `adjusted_rate`
and `multiplier` to the freshly computed values; when no row exists a new
row is inserted with the defaults (`base_rate` from the current
`daily_rate`, `rate_type` set to `daily`, `demand_level` set to `normal`). -/
def update_pricing_history (e : Equipment) (m : ℚ) (date : ℤ) :
    List PricingHistory → List PricingHistory
  | [] =>
    [{ equipment_id := e.id, base_rate := e.daily_rate,
       adjusted_rate := e.daily_rate * m, multiplier := m,
       rate_type := "daily", demand_level := "normal",
       effective_date := date }]
  | ph :: rest =>
    if historyKey ph e.id date then
      { ph with adjusted_rate := e.daily_rate * m, multiplier := m } :: rest
    else
      ph :: update_pricing_history e m date rest

/-- Overwrite the time-of-day and bounding-box columns of a rule (the
constraints claim C10 is about), leaving every other column unchanged. -/
def setTimeLoc (st et : Option ℤ) (lam lax lom lox : Option ℚ)
    (r : PricingRule) : PricingRule :=
  { r with
    start_time := st, end_time := et,
    latitude_min := lam, latitude_max := lax,
    longitude_min := lom, longitude_max := lox }

/-- A pricing rule with no constraint columns set, multiplier 1, priority 1. -/
def blankRule : PricingRule :=
  { equipment := none, equipment_type := none,
    start_date := none, end_date := none,
    start_time := none, end_time := none,
    days_of_week := [],
    latitude_min := none, latitude_max := none,
    longitude_min := none, longitude_max := none,
    hourly_multiplier := 1, daily_multiplier := 1,
    weekly_multiplier := 1, monthly_multiplier := 1,
    fixed_hourly_rate := none, fixed_daily_rate := none,
    fixed_weekly_rate := none, fixed_monthly_rate := none,
    priority := 1, is_active := true }

/-- Equipment (id 2, type 3, daily rate 100) for the rule-engine scenario. -/
def eqRules : Equipment :=
  { id := 2, equipment_type := 3, daily_rate := 100, hourly_rate := 10,
    weekly_rate := none, monthly_rate := none }

/-- Priority-5 active rule matching `eqRules` by type, with a date window
starting at day 100, hence not applicable on day 50. -/
def ruleHigh : PricingRule :=
  { blankRule with
    equipment_type := some 3, start_date := some 100,
    daily_multiplier := 3, priority := 5 }

/-- Priority-1 active rule matching `eqRules` by type with no further
constraints, hence applicable on every date. -/
def ruleLow : PricingRule :=
  { blankRule with
    equipment_type := some 3,
    daily_multiplier := 2, priority := 1 }

/-- Equipment (id 1, type 1) used in the seasonal fixed-rate scenario. -/
def eqSeason : Equipment :=
  { id := 1, equipment_type := 1, daily_rate := 30, hourly_rate := 5,
    weekly_rate := none, monthly_rate := none }

/-- Active seasonal row for type 1 over days `[0, 100]` with
`fixed_daily_rate = 50` and `daily_multiplier = 2`. -/
def seaFix : SeasonalPricing :=
  { equipment_type := 1, start_date := 0, end_date := 100,
    hourly_multiplier := 3, daily_multiplier := 2,
    fixed_hourly_rate := some 4, fixed_daily_rate := some 50,
    is_active := true }

/-- Rule with `fixed_daily_rate = 50` and a non-trivial daily multiplier. -/
def ruleFix : PricingRule :=
  { blankRule with fixed_daily_rate := some 50, daily_multiplier := 2 }

/-- Equipment whose weekly and monthly rate columns are set to `0`. -/
def eqZeroRates : Equipment :=
  { id := 4, equipment_type := 1, daily_rate := 10, hourly_rate := 2,
    weekly_rate := some 0, monthly_rate := some 0 }

/-- Equipment with a nonzero weekly rate and no monthly rate. -/
def eqWeekly : Equipment :=
  { id := 5, equipment_type := 1, daily_rate := 10, hourly_rate := 2,
    weekly_rate := some 35, monthly_rate := none }

/-- Equipment (id 6, type 2) for the demand-window scenario. -/
def eqDemand : Equipment :=
  { id := 6, equipment_type := 2, daily_rate := 10, hourly_rate := 2,
    weekly_rate := none, monthly_rate := none }

/-- Demand config for type 2 with a 3-day configured window. -/
def dpWindow : DemandPricing :=
  { equipment_type := 2, low_demand_threshold := 0,
    high_demand_threshold := 10,
    low_demand_multiplier := 1/2, normal_demand_multiplier := 1,
    high_demand_multiplier := 2,
    demand_calculation_days := 3, is_active := true }

/-- Confirmed booking of `eqDemand` starting on day 45 — inside the 7-day
window before day 50, outside the configured 3-day window. -/
def bDemand : Booking :=
  { pk := some 7, equipment := eqDemand, status := "confirmed",
    start_date := 45, end_date := 46 }

/-- History row as first created: key (equipment 1, day 50), base rate 10. -/
def histRow : PricingHistory :=
  { equipment_id := 1, base_rate := 10, adjusted_rate := 10,
    multiplier := 1, rate_type := "daily", demand_level := "normal",
    effective_date := 50 }

/-- Equipment 1 after its daily rate was changed from 10 to 20. -/
def eqRepriced : Equipment :=
  { id := 1, equipment_type := 1, daily_rate := 20, hourly_rate := 2,
    weekly_rate := none, monthly_rate := none }

/-- Lemma: `conflictFilter` holds exactly when the four row conditions of the
queryset hold. -/
theorem conflictFilter_eq_true_iff (self b : Booking) :
    conflictFilter self b = true ↔
      b.equipment.id = self.equipment.id ∧
      (b.status = "confirmed" ∨ b.status = "in_progress") ∧
      b.start_date < self.end_date ∧ b.end_date > self.start_date := by
  simp [conflictFilter, and_assoc]

/-- Helper characterisation of `check_availability` as a quantified
statement over the booking table. -/
theorem check_availability_eq_true_iff (db : List Booking) (self : Booking) :
    check_availability db self = true ↔ ∀ b ∈ db, ¬ blocksProposal self b := by
  simp only [check_availability]
  by_cases hpk : truthyPk self.pk = true
  · rw [if_pos hpk]
    rw [List.isEmpty_iff, List.filter_eq_nil_iff]
    constructor
    · intro h b hb hblk
      obtain ⟨h1, h2, h4, h5, h6⟩ := hblk
      refine h b (List.mem_filter.mpr ⟨hb, ?_⟩) ?_
      · exact (conflictFilter_eq_true_iff self b).mpr ⟨h1, h2, h4, h5⟩
      · simpa using h6 hpk
    · intro h b hbf hq
      obtain ⟨hb, hp⟩ := List.mem_filter.mp hbf
      obtain ⟨h1, h2, h4, h5⟩ := (conflictFilter_eq_true_iff self b).mp hp
      exact h b hb ⟨h1, h2, h4, h5, fun _ => by simpa using hq⟩
  · rw [if_neg hpk]
    rw [List.isEmpty_iff, List.filter_eq_nil_iff]
    constructor
    · intro h b hb hblk
      obtain ⟨h1, h2, h4, h5, _⟩ := hblk
      exact h b hb ((conflictFilter_eq_true_iff self b).mpr ⟨h1, h2, h4, h5⟩)
    · intro h b hb hp
      obtain ⟨h1, h2, h4, h5⟩ := (conflictFilter_eq_true_iff self b).mp hp
      exact h b hb ⟨h1, h2, h4, h5, fun hc => absurd hc hpk⟩

/-- C1: `check_availability` returns true iff no booking for the same
equipment with status `confirmed` or `in_progress`, other than the booking
itself (excluded via its pk when re-validating a saved record), satisfies
`start_date < proposed_end AND end_date > proposed_start`.  The strict
inequalities make merely-touching bookings (`b.end_date = proposed_start`
or `b.start_date = proposed_end`) non-conflicting, and the pk exclusion
makes a booking never conflict with its own prior record. -/
theorem claim_C1_check_availability_characterisation
    (db : List Booking) (self : Booking) :
    check_availability db self = true ↔
      ∀ b ∈ db,
        ¬(b.equipment.id = self.equipment.id ∧
          (b.status = "confirmed" ∨ b.status = "in_progress") ∧
          b.start_date < self.end_date ∧
          b.end_date > self.start_date ∧
          (truthyPk self.pk = true → b.pk ≠ self.pk)) :=
  check_availability_eq_true_iff db self

/-- C6 counterexample: the zero-duration proposal `[5, 5)` for `eqAv` *does*
conflict with the confirmed booking `[0, 10)` of the same equipment, so the
availability check returns `false`, refuting "zero-duration intervals never
conflict with anything". -/
theorem claim_C6_counterexample :
    zeroProposal.start_date = zeroProposal.end_date ∧
    check_availability [bSpan] zeroProposal = false := by
  constructor
  · rfl
  · rfl

/-- C6 amended: a zero-duration proposal conflicts exactly with the
confirmed/in-progress bookings of the same equipment (other than itself)
whose interval strictly contains its point; in particular it never
conflicts with a booking that merely touches the point at either end. -/
theorem claim_C6_zero_duration_amended (db : List Booking) (self : Booking)
    (h : self.start_date = self.end_date) :
    check_availability db self = true ↔
      ∀ b ∈ db,
        ¬(b.equipment.id = self.equipment.id ∧
          (b.status = "confirmed" ∨ b.status = "in_progress") ∧
          b.start_date < self.start_date ∧
          self.start_date < b.end_date ∧
          (truthyPk self.pk = true → b.pk ≠ self.pk)) := by
  rw [check_availability_eq_true_iff]
  unfold blocksProposal
  rw [← h]

/-- Witness for the amended C6: the zero-duration proposal `[5, 5)` does not
conflict with the touching booking `[-3, 5)`. -/
theorem claim_C6_zero_duration_amended_witness :
    check_availability [bTouch] zeroProposal = true := by
  have h := claim_C6_zero_duration_amended [bTouch] zeroProposal rfl
  exact h.mpr (by decide)

/-- Lemma: `firstMaxPriority` never returns `none` on a nonempty list. -/
theorem firstMaxPriority_eq_none_iff (l : List PricingRule) :
    firstMaxPriority l = none ↔ l = [] := by
  cases l with
  | nil => simp [firstMaxPriority]
  | cons a t =>
    constructor
    · intro h
      exfalso
      simp only [firstMaxPriority] at h
      cases hm : firstMaxPriority t with
      | none => rw [hm] at h; dsimp only at h; simp at h
      | some m =>
        rw [hm] at h; dsimp only at h
        split at h <;> simp at h
    · intro h
      exact absurd h (List.cons_ne_nil a t)

/-- The rule selected by the descending-priority `first()` is a member of
the queryset. -/
theorem firstMaxPriority_mem {l : List PricingRule} {r : PricingRule}
    (h : firstMaxPriority l = some r) : r ∈ l := by
  induction l with
  | nil => simp [firstMaxPriority] at h
  | cons a t ih =>
    simp only [firstMaxPriority] at h
    cases hm : firstMaxPriority t with
    | none =>
      rw [hm] at h; dsimp only at h
      simp only [Option.some.injEq] at h
      subst h
      exact List.mem_cons_self a t
    | some m =>
      rw [hm] at h; dsimp only at h
      split at h <;> simp only [Option.some.injEq] at h <;> subst h
      · exact List.mem_cons_of_mem a (ih hm)
      · exact List.mem_cons_self a t

/-- The rule selected by the descending-priority `first()` has maximal
priority in the queryset. -/
theorem firstMaxPriority_maximal {l : List PricingRule} {r : PricingRule}
    (h : firstMaxPriority l = some r) :
    ∀ x ∈ l, x.priority ≤ r.priority := by
  induction l generalizing r with
  | nil => simp [firstMaxPriority] at h
  | cons a t ih =>
    intro x hx
    simp only [firstMaxPriority] at h
    cases hm : firstMaxPriority t with
    | none =>
      rw [hm] at h; dsimp only at h
      simp only [Option.some.injEq] at h
      subst h
      have ht : t = [] := (firstMaxPriority_eq_none_iff t).mp hm
      subst ht
      rcases List.mem_singleton.mp hx with hxa
      simp [hxa]
    | some m =>
      rw [hm] at h; dsimp only at h
      split at h <;> simp only [Option.some.injEq] at h <;> subst h
      · rcases List.mem_cons.mp hx with hxa | hxt
        · subst hxa; omega
        · exact ih hm x hxt
      · rcases List.mem_cons.mp hx with hxa | hxt
        · subst hxa; exact Nat.le_refl _
        · have hle := ih hm x hxt
          omega

/-- C2 counterexample: with `ruleHigh` (priority 5, date window not
containing day 50) and `ruleLow` (priority 1, applicable, multiplier 2)
both active and matching `eqRules`, the engine returns the default
multiplier `1`, not the lower-priority applicable rule's `2`. -/
theorem claim_C2_counterexample :
    is_applicable ruleHigh eqRules 50 none none = false ∧
    is_applicable ruleLow eqRules 50 none none = true ∧
    ruleLow.is_active = true ∧
    ruleLow.daily_multiplier = 2 ∧
    apply_pricing_rules [ruleHigh, ruleLow] eqRules 50 = 1 ∧
    (1 : ℚ) ≠ 2 := by
  refine ⟨rfl, rfl, rfl, rfl, rfl, by norm_num⟩

/-- C2 amended: `apply_pricing_rules` consults only the single
highest-priority active matching rule — an element of the candidate
queryset of maximal priority — and returns its `daily_multiplier` when that
rule is applicable for the date, and the default multiplier `1` otherwise;
lower-priority applicable rules are never consulted. -/
theorem claim_C2_top_priority_only (rules : List PricingRule)
    (e : Equipment) (date : ℤ) (r : PricingRule)
    (h : firstMaxPriority (candidateRules rules e) = some r) :
    r ∈ candidateRules rules e ∧
    (∀ x ∈ candidateRules rules e, x.priority ≤ r.priority) ∧
    apply_pricing_rules rules e date =
      (if is_applicable r e date none none then r.daily_multiplier else 1) := by
  refine ⟨firstMaxPriority_mem h, firstMaxPriority_maximal h, ?_⟩
  simp [apply_pricing_rules, h]

/-- Witness for the amended C2 at the concrete two-rule scenario: the
selected rule is `ruleHigh` and the result is the default `1`. -/
theorem claim_C2_top_priority_only_witness :
    ruleHigh ∈ candidateRules [ruleHigh, ruleLow] eqRules ∧
    (∀ x ∈ candidateRules [ruleHigh, ruleLow] eqRules,
      x.priority ≤ ruleHigh.priority) ∧
    apply_pricing_rules [ruleHigh, ruleLow] eqRules 50 =
      (if is_applicable ruleHigh eqRules 50 none none
       then ruleHigh.daily_multiplier else 1) :=
  claim_C2_top_priority_only [ruleHigh, ruleLow] eqRules 50 ruleHigh rfl

/-- Lemma: `candidateRules` ignores the time-of-day and bounding-box columns. -/
theorem candidateRules_setTimeLoc (rules : List PricingRule) (e : Equipment)
    (st et : Option ℤ) (lam lax lom lox : Option ℚ) :
    candidateRules (rules.map (setTimeLoc st et lam lax lom lox)) e =
      (candidateRules rules e).map (setTimeLoc st et lam lax lom lox) := by
  induction rules with
  | nil => rfl
  | cons a t ih =>
    simp only [candidateRules, List.map_cons, List.filter_cons] at *
    split <;> split <;> simp_all [setTimeLoc]

/-- Lemma: `firstMaxPriority` commutes with the time/location field overwrite,
which preserves `priority`. -/
theorem firstMaxPriority_setTimeLoc (l : List PricingRule)
    (st et : Option ℤ) (lam lax lom lox : Option ℚ) :
    firstMaxPriority (l.map (setTimeLoc st et lam lax lom lox)) =
      (firstMaxPriority l).map (setTimeLoc st et lam lax lom lox) := by
  induction l with
  | nil => rfl
  | cons a t ih =>
    simp only [firstMaxPriority, List.map_cons, ih]
    cases hm : firstMaxPriority t with
    | none => rfl
    | some m =>
      dsimp only [Option.map_some]
      by_cases hp : m.priority > a.priority <;>
        simp [setTimeLoc, hp]

/-- C10: when `is_applicable` is called with `time=None` and
`location=None` — exactly how the scheduled path `apply_pricing_rules`
always calls it — the rule's `start_time`/`end_time` and
latitude/longitude bounding-box columns are never consulted: overwriting
them with arbitrary values changes neither the applicability verdict nor
the multiplier computed by `apply_pricing_rules`. -/
theorem claim_C10_time_location_skipped (r : PricingRule)
    (rules : List PricingRule) (e : Equipment) (date : ℤ)
    (st et : Option ℤ) (lam lax lom lox : Option ℚ) :
    is_applicable (setTimeLoc st et lam lax lom lox r) e date none none =
      is_applicable r e date none none ∧
    apply_pricing_rules (rules.map (setTimeLoc st et lam lax lom lox)) e date =
      apply_pricing_rules rules e date := by
  constructor
  · rfl
  · simp only [apply_pricing_rules, candidateRules_setTimeLoc,
      firstMaxPriority_setTimeLoc]
    cases firstMaxPriority (candidateRules rules e) with
    | none => rfl
    | some m => rfl

/-- C3 counterexample: `seaFix` is the matched seasonal row for `eqSeason`
on day 10 with `fixed_daily_rate = 50` and `daily_multiplier = 2`, yet
`get_current_price` returns `100 = 50 × 2`: the fixed rate is multiplied by
the row's own multiplier instead of being the entire contribution. -/
theorem claim_C3_counterexample :
    active_seasonal_rule [seaFix] eqSeason 10 = some seaFix ∧
    seaFix.fixed_daily_rate = some 50 ∧
    seaFix.daily_multiplier = 2 ∧
    get_current_price [seaFix] eqSeason 10 "daily" = 100 ∧
    (100 : ℚ) ≠ 50 := by
  refine ⟨rfl, rfl, rfl, ?_, by norm_num⟩
  norm_num [get_current_price, active_seasonal_rule, seaFix, eqSeason, pyOrQ] <;>
    decide

/-- C3 amended: in `PricingRule.calculate_rate` a set, nonzero fixed rate
for the requested rate type is the rule's entire contribution (the rule's
multiplier is bypassed); in `Equipment.get_current_price`, by contrast, the
matched seasonal row's fixed hourly/daily rate only replaces the base rate
and is still multiplied by the row's own multiplier. -/
theorem claim_C3_fixed_rate_semantics (seasonals : List SeasonalPricing)
    (r : PricingRule) (e e2 : Equipment) (dh : ℚ) (t : ℤ)
    (s : SeasonalPricing) (f : ℚ) (hf : f ≠ 0) :
    (r.fixed_hourly_rate = some f → calculate_rate r e dh "hourly" = f) ∧
    (r.fixed_daily_rate = some f → calculate_rate r e dh "daily" = f) ∧
    (r.fixed_weekly_rate = some f → calculate_rate r e dh "weekly" = f) ∧
    (r.fixed_monthly_rate = some f → calculate_rate r e dh "monthly" = f) ∧
    (active_seasonal_rule seasonals e2 t = some s →
      s.fixed_daily_rate = some f →
      get_current_price seasonals e2 t "daily" = f * s.daily_multiplier) ∧
    (active_seasonal_rule seasonals e2 t = some s →
      s.fixed_hourly_rate = some f →
      get_current_price seasonals e2 t "hourly" = f * s.hourly_multiplier) := by
  refine ⟨?_, ?_, ?_, ?_, ?_, ?_⟩
  · intro h1
    simp [calculate_rate, truthyQ, h1, hf]
  · intro h1
    simp [calculate_rate, truthyQ, h1, hf]
  · intro h1
    simp [calculate_rate, truthyQ, h1, hf]
  · intro h1
    simp [calculate_rate, truthyQ, h1, hf]
  · intro h1 h2
    simp [get_current_price, h1, h2, pyOrQ, hf]
  · intro h1 h2
    simp [get_current_price, h1, h2, pyOrQ, hf]

/-- Witness for the amended C3: `ruleFix` (fixed daily rate 50, multiplier
2) contributes exactly 50 through `calculate_rate`, while the seasonal row
`seaFix` contributes `50 × 2` through `get_current_price`. -/
theorem claim_C3_fixed_rate_semantics_witness :
    calculate_rate ruleFix eqSeason 1 "daily" = 50 ∧
    get_current_price [seaFix] eqSeason 10 "daily" = 50 * seaFix.daily_multiplier := by
  have h := claim_C3_fixed_rate_semantics [seaFix] ruleFix eqSeason eqSeason 1 10
    seaFix 50 (by norm_num)
  exact ⟨h.2.1 rfl, h.2.2.2.2.1 rfl rfl⟩

/-- C7 counterexample: `eqZeroRates` has `weekly_rate` and `monthly_rate`
*set* to `0`, yet the base-rate resolution returns `daily_rate × 7 = 70`
and `daily_rate × 30 = 300` instead of the set values — Python truthiness
treats a stored `0` like an unset column. -/
theorem claim_C7_counterexample :
    eqZeroRates.weekly_rate = some 0 ∧
    get_current_price [] eqZeroRates 0 "weekly" = 70 ∧
    (70 : ℚ) ≠ 0 ∧
    eqZeroRates.monthly_rate = some 0 ∧
    get_current_price [] eqZeroRates 0 "monthly" = 300 ∧
    (300 : ℚ) ≠ 0 := by
  refine ⟨rfl, ?_, by norm_num, rfl, ?_, by norm_num⟩ <;>
    norm_num [get_current_price, active_seasonal_rule, eqZeroRates, pyOrQ] <;>
    decide

/-- C7 amended: with no active seasonal rule, the weekly base rate is
`weekly_rate` when that column is set *and nonzero*, and exactly
`daily_rate * 7` when it is unset or zero; monthly likewise with
`daily_rate * 30`.  (The arithmetic is exact over `ℚ`: no rounding drift.) -/
theorem claim_C7_base_rate_fallback (seasonals : List SeasonalPricing)
    (e : Equipment) (t : ℤ)
    (h : active_seasonal_rule seasonals e t = none) :
    (∀ w, e.weekly_rate = some w → w ≠ 0 →
      get_current_price seasonals e t "weekly" = w) ∧
    ((e.weekly_rate = none ∨ e.weekly_rate = some 0) →
      get_current_price seasonals e t "weekly" = e.daily_rate * 7) ∧
    (∀ w, e.monthly_rate = some w → w ≠ 0 →
      get_current_price seasonals e t "monthly" = w) ∧
    ((e.monthly_rate = none ∨ e.monthly_rate = some 0) →
      get_current_price seasonals e t "monthly" = e.daily_rate * 30) := by
  refine ⟨?_, ?_, ?_, ?_⟩
  · intro w hw hw0
    simp [get_current_price, h, pyOrQ, hw, hw0]
  · rintro (hw | hw) <;> simp [get_current_price, h, pyOrQ, hw]
  · intro w hw hw0
    simp [get_current_price, h, pyOrQ, hw, hw0]
  · rintro (hw | hw) <;> simp [get_current_price, h, pyOrQ, hw]

/-- Witness for the amended C7: `eqWeekly` has `weekly_rate = 35` (set,
nonzero) and no monthly rate, with no seasonal rule in the table. -/
theorem claim_C7_base_rate_fallback_witness :
    get_current_price [] eqWeekly 0 "weekly" = 35 ∧
    get_current_price [] eqWeekly 0 "monthly" = eqWeekly.daily_rate * 30 := by
  have h := claim_C7_base_rate_fallback [] eqWeekly 0 rfl
  exact ⟨h.1 35 rfl (by norm_num), h.2.2.2 (Or.inl rfl)⟩

/-- C8 counterexample: for the unrecognized rate type `"fortnightly"` both
base-rate resolution operations return the daily rate — a price — rather
than failing; no `InvalidRateType` error exists anywhere in the code. -/
theorem claim_C8_counterexample :
    get_current_price [] eqZeroRates 0 "fortnightly" = eqZeroRates.daily_rate ∧
    calculate_rate blankRule eqZeroRates 1 "fortnightly" = eqZeroRates.daily_rate := by
  exact ⟨rfl, rfl⟩

/-- C8 amended: for every rate type outside
`{hourly, daily, weekly, monthly}`, both `Equipment.get_current_price` and
`PricingRule.calculate_rate` silently fall back to `equipment.daily_rate`
instead of raising an error. -/
theorem claim_C8_unknown_rate_type_fallback (seasonals : List SeasonalPricing)
    (r : PricingRule) (e : Equipment) (t : ℤ) (dh : ℚ) (rt : String)
    (h1 : rt ≠ "hourly") (h2 : rt ≠ "daily") (h3 : rt ≠ "weekly")
    (h4 : rt ≠ "monthly") :
    get_current_price seasonals e t rt = e.daily_rate ∧
    calculate_rate r e dh rt = e.daily_rate := by
  constructor
  · unfold get_current_price
    cases active_seasonal_rule seasonals e t with
    | none => simp [h1, h2, h3, h4]
    | some rule => simp [h1, h2, h3, h4]
  · simp [calculate_rate, h1, h2, h3, h4]

/-- Witness for the amended C8 at the rate type `"biweekly"`. -/
theorem claim_C8_unknown_rate_type_fallback_witness :
    get_current_price [] eqWeekly 0 "biweekly" = eqWeekly.daily_rate ∧
    calculate_rate blankRule eqWeekly 1 "biweekly" = eqWeekly.daily_rate :=
  claim_C8_unknown_rate_type_fallback [] blankRule eqWeekly 0 1 "biweekly"
    (by decide) (by decide) (by decide) (by decide)

/-- C5 counterexample: config window is 3 days, but the booking starting 5
days before day 50 is still counted — `calculate_demand_multiplier` uses a
hard-coded 7-day window, so it answers the normal multiplier `1` while the
claim's computation (window from the config) answers the low-demand
multiplier `1/2`. -/
theorem claim_C5_counterexample :
    dpWindow.demand_calculation_days = 3 ∧
    calculate_demand_multiplier [bDemand] [dpWindow] eqDemand 50 = 1 ∧
    claimWordedDemandMultiplier [bDemand] [dpWindow] eqDemand 50 = 1/2 ∧
    (1 : ℚ) ≠ 1/2 := by
  refine ⟨rfl, ?_, ?_, by norm_num⟩ <;> rfl

/-- C5 amended: `calculate_demand_multiplier` counts bookings of the
equipment's type with status `confirmed`/`in_progress` starting within
`[as_of_date − 7, as_of_date]` — the window is always 7 days, the config's
`demand_calculation_days` is not consulted — and maps the count to the low
multiplier when `count ≤ low_threshold`, else the high multiplier when
`count ≥ high_threshold`, else the normal multiplier.  Only
`DemandPricing.calculate_demand_level` uses the configured window, with the
same threshold mapping onto level strings. -/
theorem claim_C5_demand_window (bookings : List Booking)
    (configs : List DemandPricing) (e : Equipment) (date : ℤ)
    (dp : DemandPricing)
    (h : activeDemandConfig configs e.equipment_type = some dp) :
    calculate_demand_multiplier bookings configs e date =
      (if demandBookingCount bookings e.equipment_type (date - 7) date ≤
          dp.low_demand_threshold
       then dp.low_demand_multiplier
       else if demandBookingCount bookings e.equipment_type (date - 7) date ≥
          dp.high_demand_threshold
       then dp.high_demand_multiplier
       else dp.normal_demand_multiplier) ∧
    calculate_demand_level dp bookings date =
      (if demandBookingCount bookings dp.equipment_type
          (date - dp.demand_calculation_days) date ≤ dp.low_demand_threshold
       then "low"
       else if demandBookingCount bookings dp.equipment_type
          (date - dp.demand_calculation_days) date ≥ dp.high_demand_threshold
       then "high"
       else "normal") := by
  constructor
  · simp [calculate_demand_multiplier, h]
  · rfl

/-- Witness for the amended C5 at the concrete one-booking scenario. -/
theorem claim_C5_demand_window_witness :
    calculate_demand_multiplier [bDemand] [dpWindow] eqDemand 50 =
      (if demandBookingCount [bDemand] eqDemand.equipment_type (50 - 7) 50 ≤
          dpWindow.low_demand_threshold
       then dpWindow.low_demand_multiplier
       else if demandBookingCount [bDemand] eqDemand.equipment_type (50 - 7) 50 ≥
          dpWindow.high_demand_threshold
       then dpWindow.high_demand_multiplier
       else dpWindow.normal_demand_multiplier) ∧
    calculate_demand_level dpWindow [bDemand] 50 =
      (if demandBookingCount [bDemand] dpWindow.equipment_type
          (50 - dpWindow.demand_calculation_days) 50 ≤ dpWindow.low_demand_threshold
       then "low"
       else if demandBookingCount [bDemand] dpWindow.equipment_type
          (50 - dpWindow.demand_calculation_days) 50 ≥ dpWindow.high_demand_threshold
       then "high"
       else "normal") :=
  claim_C5_demand_window [bDemand] [dpWindow] eqDemand 50 dpWindow rfl

/-- Re-running the upsert with identical inputs leaves the table unchanged. -/
theorem update_pricing_history_idem (e : Equipment) (m : ℚ) (d : ℤ)
    (table : List PricingHistory) :
    update_pricing_history e m d (update_pricing_history e m d table) =
      update_pricing_history e m d table := by
  induction table with
  | nil => simp [update_pricing_history, historyKey]
  | cons a t ih =>
    by_cases ha : historyKey a e.id d = true
    · have ha2 : historyKey
          { a with adjusted_rate := e.daily_rate * m, multiplier := m }
          e.id d = true := ha
      simp [update_pricing_history, ha, ha2]
    · simp [update_pricing_history, ha, ih]

/-- After one upsert the table holds exactly one row with the key, provided
it held at most one before (the `get_or_create` uniqueness assumption). -/
theorem historyCount_update (e : Equipment) (m : ℚ) (d : ℤ)
    (table : List PricingHistory)
    (h : historyCount table e.id d ≤ 1) :
    historyCount (update_pricing_history e m d table) e.id d = 1 := by
  induction table with
  | nil => simp [update_pricing_history, historyCount, historyKey]
  | cons a t ih =>
    by_cases ha : historyKey a e.id d = true
    · have ha2 : historyKey
          { a with adjusted_rate := e.daily_rate * m, multiplier := m }
          e.id d = true := ha
      have hct : historyCount t e.id d = 0 := by
        unfold historyCount at h
        rw [List.filter_cons, if_pos ha] at h
        simp only [List.length_cons] at h
        unfold historyCount
        omega
      have hupd : update_pricing_history e m d (a :: t) =
          { a with adjusted_rate := e.daily_rate * m, multiplier := m } :: t := by
        simp [update_pricing_history, ha]
      rw [hupd]
      unfold historyCount at hct ⊢
      rw [List.filter_cons, if_pos ha2]
      simp only [List.length_cons]
      omega
    · have h' : historyCount t e.id d ≤ 1 := by
        unfold historyCount at h ⊢
        rw [List.filter_cons, if_neg ha] at h
        exact h
      have hupd : update_pricing_history e m d (a :: t) =
          a :: update_pricing_history e m d t := by
        simp [update_pricing_history, ha]
      rw [hupd]
      unfold historyCount at ih ⊢
      rw [List.filter_cons, if_neg ha]
      exact ih h'

/-- C4: re-running the pricing-history upsert for the same equipment,
multiplier and effective date is idempotent — the second run rewrites the
same row with the same computed values, so the table is unchanged and
contains exactly one row for the `(equipment, effective_date)` key
(assuming the `get_or_create` invariant that at most one such row existed
before). -/
theorem claim_C4_idempotent_upsert (table : List PricingHistory)
    (e : Equipment) (m : ℚ) (d : ℤ)
    (h : historyCount table e.id d ≤ 1) :
    update_pricing_history e m d (update_pricing_history e m d table) =
      update_pricing_history e m d table ∧
    historyCount (update_pricing_history e m d table) e.id d = 1 :=
  ⟨update_pricing_history_idem e m d table, historyCount_update e m d table h⟩

/-- Witness for C4 on a one-row table. -/
theorem claim_C4_idempotent_upsert_witness :
    update_pricing_history eqRepriced 2 50
        (update_pricing_history eqRepriced 2 50 [histRow]) =
      update_pricing_history eqRepriced 2 50 [histRow] ∧
    historyCount (update_pricing_history eqRepriced 2 50 [histRow])
        eqRepriced.id 50 = 1 :=
  claim_C4_idempotent_upsert [histRow] eqRepriced 2 50 (by decide)

/-- C9: when a row with the key already exists, the upsert replaces the
first such row by a copy whose `adjusted_rate` and `multiplier` are
recomputed, every other field of that row (`base_rate`, `rate_type`,
`demand_level`, `effective_date`, `equipment_id`) keeping its originally
created value — even when `equipment.daily_rate` has changed since — and
every other row of the table is untouched. -/
theorem claim_C9_update_frame (table : List PricingHistory)
    (e : Equipment) (m : ℚ) (d : ℤ)
    (h : ∃ ph ∈ table, historyKey ph e.id d = true) :
    ∃ i ph, table[i]? = some ph ∧ historyKey ph e.id d = true ∧
      update_pricing_history e m d table =
        table.set i
          { ph with adjusted_rate := e.daily_rate * m, multiplier := m } := by
  induction table with
  | nil => simp at h
  | cons a t ih =>
    by_cases ha : historyKey a e.id d = true
    · refine ⟨0, a, by simp, ha, ?_⟩
      simp [update_pricing_history, ha]
    · have h' : ∃ ph ∈ t, historyKey ph e.id d = true := by
        obtain ⟨ph, hmem, hk⟩ := h
        rcases List.mem_cons.mp hmem with hpa | hmem2
        · exact absurd (hpa ▸ hk) ha
        · exact ⟨ph, hmem2, hk⟩
      obtain ⟨i, ph, hget, hk, heq⟩ := ih h'
      refine ⟨i + 1, ph, ?_, hk, ?_⟩
      · simpa using hget
      · simp [update_pricing_history, ha, heq]

/-- Witness for C9: the stored row keeps `base_rate = 10` although the
equipment's daily rate is now 20. -/
theorem claim_C9_update_frame_witness :
    ∃ i ph, [histRow][i]? = some ph ∧ historyKey ph eqRepriced.id 50 = true ∧
      update_pricing_history eqRepriced 2 50 [histRow] =
        [histRow].set i
          { ph with adjusted_rate := eqRepriced.daily_rate * 2, multiplier := 2 } :=
  claim_C9_update_frame [histRow] eqRepriced 2 50 ⟨histRow, by simp, by decide⟩
